import Mathlib

/-!
Verification of the Telegram/Gemini relay bot (src/app.py, src/app_webhook.py).

Shallow embedding: the per-user session store (`context.user_data` under
`CHAT_SESSION_KEY`), the helper `get_or_create_chat`, the handlers
`start`, `new_chat`, `handle_message` of both the polling variant
(app.py) and the webhook variant (app_webhook.py), the polling startup of
`main` (app.py), and the Flask `webhook` endpoint (app_webhook.py).

External effects are made explicit: the environment `Env` fixes whether the
Gemini client initialized (`ai_client is not None`), whether the
`send_chat_action` typing call succeeds, and what `chat_session.send_message`
does for the one update being handled.  A handler run is summarized by a
`HandlerResult`: the ordered list of payloads passed to
`update.message.reply_text`, the number of typing-indicator attempts, the
number of backend `send_message` calls, whether the handler terminated by
propagating an exception, and the resulting per-user store.
-/

namespace TelegramBot

/-- A Gemini chat session object, identified by its creation index so that
distinct constructions are distinguishable instances. -/
structure Session where
  id : Nat
deriving DecidableEq

/-- The per-user slice of `context.user_data`: whether `CHAT_SESSION_KEY` is
present (and which session it holds), plus the next fresh creation index. -/
structure Store where
  sess : Option Session
  counter : Nat
deriving DecidableEq

/-- The behaviour of `chat_session.send_message(user_message)` for the update
being handled: a response whose `.text` is the given optional string, a raised
`APIError`, or any other raised exception. -/
inductive SendOutcome
  | ok (text : Option String)
  | apiError
  | otherError
deriving DecidableEq

/-- The fixed external circumstances of one handler run. -/
structure Env where
  aiInit : Bool
  typingOk : Bool
  send : SendOutcome
deriving DecidableEq

/-- Observable outcome of running one handler on one update. -/
structure HandlerResult where
  replies : List (Option String)
  typingAttempts : Nat
  backendCalls : Nat
  raised : Bool
  store : Store
deriving DecidableEq

/- Fixed reply texts of the polling variant (app.py). -/

def notConfiguredText : String :=
  "AI service is not configured. Please check the GEMINI_API_KEY."

def couldNotStartText : String :=
  "Could not start a chat session. Please ensure the AI client initialized correctly."

def apiErrorText : String :=
  "I apologize, but I received an error from the AI service. The API might be incorrectly configured."

def genericErrorText : String :=
  "Something went wrong while I was thinking. Try asking again!"

def resetDoneText : String :=
  "Conversation memory has been reset! Starting a fresh chat now."

def resetAlreadyText : String :=
  "You are already starting a new chat!"

/- Fixed reply texts of the webhook variant (app_webhook.py). -/

def webhookNotConfiguredText : String :=
  "AI service not configured."

def emptyPlaceholderText : String :=
  "🤖 (Empty response from Gemini.)"

def webhookApiErrorText : String :=
  "⚠️ Gemini is a bit tired right now. Please try again shortly!"

def webhookGenericErrorText : String :=
  "😅 Something went wrong, but I’m still here! Try again?"

def webhookResetDoneText : String :=
  "Conversation memory has been reset!"

/-- `get_or_create_chat(context, user_id)` — identical logic in app.py
(lines 62-84) and app_webhook.py (lines 57-66): returns `None` when the AI
client is uninitialized; otherwise returns the stored session, creating and
inserting a fresh one first when `CHAT_SESSION_KEY` is absent. -/
def get_or_create_chat (env : Env) (st : Store) : Option Session × Store :=
  if env.aiInit then
    match st.sess with
    | some c => (some c, st)
    | none =>
      let chat : Session := ⟨st.counter⟩
      (some chat, { sess := some chat, counter := st.counter + 1 })
  else
    (none, st)

/-- The `/start` handler of app.py (lines 91-95): one templated greeting, no
session interaction. -/
def start (userName : String) (st : Store) : HandlerResult :=
  { replies := [some ("Hello, " ++ userName ++ "! I am an AI bot powered by Gemini and I remember our conversation. Ask me anything!")],
    typingAttempts := 0, backendCalls := 0, raised := false, store := st }

/-- The `/start` handler of app_webhook.py (lines 71-75). -/
def webhook_start (userName : String) (st : Store) : HandlerResult :=
  { replies := [some ("Hello, " ++ userName ++ "! I am an AI bot powered by Gemini (webhook mode).")],
    typingAttempts := 0, backendCalls := 0, raised := false, store := st }

/-- The `/new_chat` reset handler of app.py (lines 97-106): deletes
`CHAT_SESSION_KEY` when present and confirms, otherwise reports that a fresh
chat is already in effect. -/
def new_chat (st : Store) : HandlerResult :=
  match st.sess with
  | some _ =>
    { replies := [some resetDoneText], typingAttempts := 0, backendCalls := 0,
      raised := false, store := { sess := none, counter := st.counter } }
  | none =>
    { replies := [some resetAlreadyText], typingAttempts := 0, backendCalls := 0,
      raised := false, store := st }

/-- The `/new_chat` reset handler of app_webhook.py (lines 77-82): same
eviction logic, shorter confirmation text. -/
def webhook_new_chat (st : Store) : HandlerResult :=
  match st.sess with
  | some _ =>
    { replies := [some webhookResetDoneText], typingAttempts := 0, backendCalls := 0,
      raised := false, store := { sess := none, counter := st.counter } }
  | none =>
    { replies := [some resetAlreadyText], typingAttempts := 0, backendCalls := 0,
      raised := false, store := st }

/-- The text-message handler of app.py (lines 108-153).  The `ai_client is
None` guard replies and returns before any side effect.  The
`send_chat_action` typing call sits before the `try` block, so its failure
propagates out of the handler with no reply sent.  Inside the `try`:
`get_or_create_chat`, the `None` fallback reply, `send_message`, and the
success reply forwarding `response.text` unchanged; `except APIError` and
`except Exception` each send one fixed text. -/
def handle_message (env : Env) (st : Store) : HandlerResult :=
  if env.aiInit then
    if env.typingOk then
      match get_or_create_chat env st with
      | (none, st2) =>
        { replies := [some couldNotStartText], typingAttempts := 1,
          backendCalls := 0, raised := false, store := st2 }
      | (some _, st2) =>
        match env.send with
        | SendOutcome.ok t =>
          { replies := [t], typingAttempts := 1, backendCalls := 1,
            raised := false, store := st2 }
        | SendOutcome.apiError =>
          { replies := [some apiErrorText], typingAttempts := 1, backendCalls := 1,
            raised := false, store := st2 }
        | SendOutcome.otherError =>
          { replies := [some genericErrorText], typingAttempts := 1, backendCalls := 1,
            raised := false, store := st2 }
    else
      { replies := [], typingAttempts := 1, backendCalls := 0, raised := true, store := st }
  else
    { replies := [some notConfiguredText], typingAttempts := 0, backendCalls := 0,
      raised := false, store := st }

/-- The text-message handler of app_webhook.py (lines 84-108).  Same shape as
the polling variant except: no `None` fallback branch (a `None` session would
raise inside the `try` and land in `except Exception`), and the success reply
is `response.text or "🤖 (Empty response from Gemini.)"` — the placeholder is
substituted for an absent or empty text. -/
def webhook_handle_message (env : Env) (st : Store) : HandlerResult :=
  if env.aiInit then
    if env.typingOk then
      match get_or_create_chat env st with
      | (none, st2) =>
        { replies := [some webhookGenericErrorText], typingAttempts := 1,
          backendCalls := 0, raised := false, store := st2 }
      | (some _, st2) =>
        match env.send with
        | SendOutcome.ok t =>
          let replyText :=
            match t with
            | none => emptyPlaceholderText
            | some s => if s = "" then emptyPlaceholderText else s
          { replies := [some replyText], typingAttempts := 1, backendCalls := 1,
            raised := false, store := st2 }
        | SendOutcome.apiError =>
          { replies := [some webhookApiErrorText], typingAttempts := 1, backendCalls := 1,
            raised := false, store := st2 }
        | SendOutcome.otherError =>
          { replies := [some webhookGenericErrorText], typingAttempts := 1, backendCalls := 1,
            raised := false, store := st2 }
    else
      { replies := [], typingAttempts := 1, backendCalls := 0, raised := true, store := st }
  else
    { replies := [some webhookNotConfiguredText], typingAttempts := 0, backendCalls := 0,
      raised := false, store := st }

/-- The kind of update the dispatcher routes: the three registered handlers.
Non-text, non-command updates have no registered handler and never reach
these functions. -/
inductive UpdateKind
  | startCmd (userName : String)
  | resetCmd
  | textMsg
deriving DecidableEq

/-- The handler registration of app.py `main` (lines 169-173): `/start`,
`/new_chat`, and plain text each map to their handler. -/
def dispatch (env : Env) (st : Store) : UpdateKind → HandlerResult
  | UpdateKind.startCmd n => start n st
  | UpdateKind.resetCmd => new_chat st
  | UpdateKind.textMsg => handle_message env st

/-- The handler registration of app_webhook.py (lines 113-116). -/
def webhook_dispatch (env : Env) (st : Store) : UpdateKind → HandlerResult
  | UpdateKind.startCmd n => webhook_start n st
  | UpdateKind.resetCmd => webhook_new_chat st
  | UpdateKind.textMsg => webhook_handle_message env st

/-- Arguments of one `application.run_polling(...)` call that matter for the
pending-update policy.  In python-telegram-bot, `drop_pending_updates`
defaults to not dropping. -/
structure RunPollingArgs where
  dropPendingUpdates : Bool
deriving DecidableEq

/-- The two `application.run_polling(...)` statements of app.py `main`
(lines 178-179), in program order.  The first passes only `poll_interval`
and `allowed_updates`, leaving `drop_pending_updates` at its non-dropping
default; the second — dead code until the first blocking loop exits —
passes `drop_pending_updates=True`. -/
def mainRunPollingCalls : List RunPollingArgs :=
  [{ dropPendingUpdates := false }, { dropPendingUpdates := true }]

/-- Of the updates queued at the platform before process start, those the
polling loop delivers to the dispatcher (in the order received) under the
given `run_polling` arguments. -/
def pendingDelivered (args : RunPollingArgs) (pending : List UpdateKind) :
    List UpdateKind :=
  if args.dropPendingUpdates then [] else pending

/-- What the `POST /webhook` Flask endpoint has done by the time it
returns: the acknowledgement body (a JSON object given by its key-value
pairs), the state of `application.update_queue`, and how many handler /
backend invocations happened before the return. -/
structure WebhookResponse where
  ackBody : List (String × String)
  queue : List UpdateKind
  handlersInvokedBeforeReturn : Nat
  backendCallsBeforeReturn : Nat
deriving DecidableEq

/-- The success acknowledgement body returned by the webhook endpoint of
app_webhook.py: the JSON object with the single pair status/ok. -/
def okAckBody : List (String × String) := [("status", "ok")]

/-- The `POST /webhook` endpoint of app_webhook.py (lines 131-136): parses
the posted Update, enqueues it on `application.update_queue` with
`put_nowait` (which does not wait for processing), and returns the success
body.  No handler and no backend call runs before the return; the queued
update is consumed later by the application started in `start_webhook`. -/
def webhook (queue : List UpdateKind) (u : UpdateKind) : WebhookResponse :=
  { ackBody := okAckBody, queue := queue ++ [u],
    handlersInvokedBeforeReturn := 0, backendCallsBeforeReturn := 0 }

/-- Store well-formedness: any stored session was created by an earlier
counter value.  Holds of the initial empty store and is preserved by every
operation (see `get_or_create_preserves_wf` and `new_chat_preserves_wf`). -/
def StoreWF (st : Store) : Prop :=
  ∀ s : Session, st.sess = some s → s.id < st.counter

theorem initial_store_wf : StoreWF { sess := none, counter := 0 } := by
  intro s hs
  simp [StoreWF] at hs

theorem get_or_create_preserves_wf (env : Env) (st : Store) (h : StoreWF st) :
    StoreWF (get_or_create_chat env st).2 := by
  unfold get_or_create_chat
  cases hai : env.aiInit
  · simpa using h
  · cases hs : st.sess
    · intro s hsome
      simp at hsome
      simp [← hsome]
    · simpa [hs] using h

theorem new_chat_preserves_wf (st : Store) (h : StoreWF st) :
    StoreWF (new_chat st).store := by
  unfold new_chat
  cases hs : st.sess
  · simpa [hs] using h
  · intro s hsome
    simp at hsome

/-- Claim C2: for every user, two sequential `get_or_create_chat` calls with
no intervening reset return the same value, and the second call constructs
nothing — the store after the second call, creation counter included, equals
the store after the first. -/
theorem c2_get_or_create_idempotent (env : Env) (st : Store) :
    (get_or_create_chat env (get_or_create_chat env st).2).1 =
      (get_or_create_chat env st).1 ∧
    (get_or_create_chat env (get_or_create_chat env st).2).2 =
      (get_or_create_chat env st).2 := by
  cases hai : env.aiInit <;> cases hs : st.sess <;>
    simp [get_or_create_chat, hai, hs]

/-- Claim C4: with the AI client uninitialized, both message handlers reply
with their fixed not-configured text and return with no typing attempt, no
backend call, no exception, and the per-user store untouched (in particular
no session is created); the guard precedes every side effect. -/
theorem c4_not_configured (env : Env) (st : Store) (h : env.aiInit = false) :
    handle_message env st =
      { replies := [some notConfiguredText], typingAttempts := 0,
        backendCalls := 0, raised := false, store := st } ∧
    webhook_handle_message env st =
      { replies := [some webhookNotConfiguredText], typingAttempts := 0,
        backendCalls := 0, raised := false, store := st } := by
  simp [handle_message, webhook_handle_message, h]

theorem c4_witness :
    handle_message { aiInit := false, typingOk := true, send := SendOutcome.ok none }
        { sess := none, counter := 0 } =
      { replies := [some notConfiguredText], typingAttempts := 0,
        backendCalls := 0, raised := false, store := { sess := none, counter := 0 } } ∧
    webhook_handle_message { aiInit := false, typingOk := true, send := SendOutcome.ok none }
        { sess := none, counter := 0 } =
      { replies := [some webhookNotConfiguredText], typingAttempts := 0,
        backendCalls := 0, raised := false, store := { sess := none, counter := 0 } } :=
  c4_not_configured _ _ rfl

/-- Claim C10: once the handler-entry guard has found the AI client
initialized (and it is set once at module load, never reassigned),
`get_or_create_chat` never returns `none`; consequently, whenever the
handler also gets past the typing call, it always reaches the backend call
(`backendCalls = 1`), so app.py's "Could not start a chat session" fallback
branch — whose result has `backendCalls = 0` — is never taken. -/
theorem c10_fallback_unreachable (env : Env) (st : Store) (h : env.aiInit = true) :
    (get_or_create_chat env st).1 ≠ none ∧
    (env.typingOk = true → (handle_message env st).backendCalls = 1) := by
  cases hty : env.typingOk <;> cases hs : st.sess <;> cases hsend : env.send <;>
    simp [get_or_create_chat, handle_message, h, hty, hs, hsend]

theorem c10_witness :
    (get_or_create_chat { aiInit := true, typingOk := true, send := SendOutcome.ok none }
        { sess := none, counter := 0 }).1 ≠ none ∧
    (({ aiInit := true, typingOk := true, send := SendOutcome.ok none } : Env).typingOk = true →
      (handle_message { aiInit := true, typingOk := true, send := SendOutcome.ok none }
          { sess := none, counter := 0 }).backendCalls = 1) :=
  c10_fallback_unreachable _ _ rfl

/-- Claim C5: when `send_message` raises `APIError`, both handlers reply
with their fixed apology text, propagate no exception, and do not evict:
the user's session is still present afterwards, and if the user already had
a session the store is completely unchanged. -/
theorem c5_api_error_keeps_session (env : Env) (st : Store)
    (hsend : env.send = SendOutcome.apiError)
    (hai : env.aiInit = true) (hty : env.typingOk = true) :
    (handle_message env st).replies = [some apiErrorText] ∧
    (handle_message env st).raised = false ∧
    (handle_message env st).store.sess.isSome = true ∧
    (∀ s : Session, st.sess = some s → (handle_message env st).store = st) ∧
    (webhook_handle_message env st).replies = [some webhookApiErrorText] ∧
    (webhook_handle_message env st).raised = false ∧
    (webhook_handle_message env st).store.sess.isSome = true ∧
    (∀ s : Session, st.sess = some s → (webhook_handle_message env st).store = st) := by
  cases hs : st.sess <;>
    simp [handle_message, webhook_handle_message, get_or_create_chat, hsend, hai, hty, hs]

theorem c5_witness :
    (handle_message { aiInit := true, typingOk := true, send := SendOutcome.apiError }
        { sess := some ⟨0⟩, counter := 1 }).replies = [some apiErrorText] ∧
    (handle_message { aiInit := true, typingOk := true, send := SendOutcome.apiError }
        { sess := some ⟨0⟩, counter := 1 }).raised = false ∧
    (handle_message { aiInit := true, typingOk := true, send := SendOutcome.apiError }
        { sess := some ⟨0⟩, counter := 1 }).store.sess.isSome = true ∧
    (∀ s : Session, ({ sess := some ⟨0⟩, counter := 1 } : Store).sess = some s →
      (handle_message { aiInit := true, typingOk := true, send := SendOutcome.apiError }
          { sess := some ⟨0⟩, counter := 1 }).store = { sess := some ⟨0⟩, counter := 1 }) ∧
    (webhook_handle_message { aiInit := true, typingOk := true, send := SendOutcome.apiError }
        { sess := some ⟨0⟩, counter := 1 }).replies = [some webhookApiErrorText] ∧
    (webhook_handle_message { aiInit := true, typingOk := true, send := SendOutcome.apiError }
        { sess := some ⟨0⟩, counter := 1 }).raised = false ∧
    (webhook_handle_message { aiInit := true, typingOk := true, send := SendOutcome.apiError }
        { sess := some ⟨0⟩, counter := 1 }).store.sess.isSome = true ∧
    (∀ s : Session, ({ sess := some ⟨0⟩, counter := 1 } : Store).sess = some s →
      (webhook_handle_message { aiInit := true, typingOk := true, send := SendOutcome.apiError }
          { sess := some ⟨0⟩, counter := 1 }).store = { sess := some ⟨0⟩, counter := 1 }) :=
  c5_api_error_keeps_session _ _ rfl rfl rfl

/-- Claim C3: resetting with an existing session evicts it and confirms with
the fixed done-message (both variants); the next `get_or_create_chat`
constructs and returns a new session distinct from the evicted one; and
resetting with no session is not an error — the store is unchanged and the
fixed already-fresh message is sent.  The hypothesis `s.id < st.counter` is
the reachable-state invariant `StoreWF` (see `initial_store_wf`,
`get_or_create_preserves_wf`, `new_chat_preserves_wf`). -/
theorem c3_reset_evicts_and_recreates (env : Env) (st : Store) (s : Session)
    (hs : st.sess = some s) (hlt : s.id < st.counter) (hai : env.aiInit = true) :
    (new_chat st).replies = [some resetDoneText] ∧
    (new_chat st).store.sess = none ∧
    (webhook_new_chat st).replies = [some webhookResetDoneText] ∧
    (webhook_new_chat st).store.sess = none ∧
    (∃ s2 : Session, (get_or_create_chat env (new_chat st).store).1 = some s2 ∧ s2 ≠ s) ∧
    (∀ st2 : Store, st2.sess = none →
      (new_chat st2).store = st2 ∧ (new_chat st2).replies = [some resetAlreadyText] ∧
      (webhook_new_chat st2).store = st2 ∧
      (webhook_new_chat st2).replies = [some resetAlreadyText]) := by
  refine ⟨?_, ?_, ?_, ?_, ?_, ?_⟩
  · simp [new_chat, hs]
  · simp [new_chat, hs]
  · simp [webhook_new_chat, hs]
  · simp [webhook_new_chat, hs]
  · refine ⟨⟨st.counter⟩, ?_, ?_⟩
    · simp [new_chat, get_or_create_chat, hs, hai]
    · intro heq
      have hid := congrArg Session.id heq
      simp at hid
      omega
  · intro st2 hs2
    refine ⟨?_, ?_, ?_, ?_⟩ <;> simp [new_chat, webhook_new_chat, hs2]

theorem c3_witness :
    (new_chat { sess := some ⟨0⟩, counter := 1 }).replies = [some resetDoneText] ∧
    (new_chat { sess := some ⟨0⟩, counter := 1 }).store.sess = none ∧
    (webhook_new_chat { sess := some ⟨0⟩, counter := 1 }).replies = [some webhookResetDoneText] ∧
    (webhook_new_chat { sess := some ⟨0⟩, counter := 1 }).store.sess = none ∧
    (∃ s2 : Session,
      (get_or_create_chat { aiInit := true, typingOk := true, send := SendOutcome.ok none }
          (new_chat { sess := some ⟨0⟩, counter := 1 }).store).1 = some s2 ∧ s2 ≠ ⟨0⟩) ∧
    (∀ st2 : Store, st2.sess = none →
      (new_chat st2).store = st2 ∧ (new_chat st2).replies = [some resetAlreadyText] ∧
      (webhook_new_chat st2).store = st2 ∧
      (webhook_new_chat st2).replies = [some resetAlreadyText]) :=
  c3_reset_evicts_and_recreates _ _ ⟨0⟩ rfl (by decide) rfl

/-- Claim C1 counterexample: a plain-text update dispatched with the client
initialized but the `send_chat_action` typing call failing terminates the
handler with zero outbound replies (the exception propagates), in both
variants — contradicting "exactly one outbound reply on every exit path,
never zero". -/
theorem c1_counterexample :
    (dispatch { aiInit := true, typingOk := false, send := SendOutcome.ok none }
        { sess := none, counter := 0 } UpdateKind.textMsg).replies.length = 0 ∧
    (dispatch { aiInit := true, typingOk := false, send := SendOutcome.ok none }
        { sess := none, counter := 0 } UpdateKind.textMsg).raised = true ∧
    (webhook_dispatch { aiInit := true, typingOk := false, send := SendOutcome.ok none }
        { sess := none, counter := 0 } UpdateKind.textMsg).replies.length = 0 := by
  exact ⟨rfl, rfl, rfl⟩

/-- Claim C1 as amended: every dispatched update (start command, reset
command, or plain text) yields exactly one outbound reply on every exit
path — the uninitialized-gateway, `APIError`, and generic-exception paths
included — except the one path where the gateway is initialized and the
typing-indicator call fails, which yields zero replies because that call is
outside the try block and its exception propagates. -/
theorem c1_exactly_one_reply (env : Env) (st : Store) (k : UpdateKind) :
    (dispatch env st k).replies.length =
      (if k = UpdateKind.textMsg ∧ env.aiInit = true ∧ env.typingOk = false
       then 0 else 1) ∧
    (webhook_dispatch env st k).replies.length =
      (if k = UpdateKind.textMsg ∧ env.aiInit = true ∧ env.typingOk = false
       then 0 else 1) := by
  cases k <;> cases hai : env.aiInit <;> cases hty : env.typingOk <;>
    cases hs : st.sess <;> cases hsend : env.send <;>
      simp [dispatch, webhook_dispatch, start, webhook_start, new_chat,
        webhook_new_chat, handle_message, webhook_handle_message,
        get_or_create_chat, hai, hty, hs, hsend]

/-- Claim C7 counterexample: with the client initialized and the typing call
failing, the handler performs no backend call and emits no reply in either
variant — the typing failure aborts the exchange. -/
theorem c7_counterexample :
    (handle_message { aiInit := true, typingOk := false, send := SendOutcome.ok (some "hi") }
        { sess := some ⟨0⟩, counter := 1 }).backendCalls = 0 ∧
    (handle_message { aiInit := true, typingOk := false, send := SendOutcome.ok (some "hi") }
        { sess := some ⟨0⟩, counter := 1 }).replies = [] ∧
    (handle_message { aiInit := true, typingOk := false, send := SendOutcome.ok (some "hi") }
        { sess := some ⟨0⟩, counter := 1 }).raised = true ∧
    (webhook_handle_message { aiInit := true, typingOk := false, send := SendOutcome.ok (some "hi") }
        { sess := some ⟨0⟩, counter := 1 }).backendCalls = 0 ∧
    (webhook_handle_message { aiInit := true, typingOk := false, send := SendOutcome.ok (some "hi") }
        { sess := some ⟨0⟩, counter := 1 }).replies = [] := by
  exact ⟨rfl, rfl, rfl, rfl, rfl⟩

/-- Claim C7 as amended: in both variants the typing-indicator call is made
before the try block, so its failure aborts the exchange — the handler
terminates by propagating the exception, never reaches the backend call, and
emits no reply; the store is left untouched. -/
theorem c7_typing_failure_aborts (env : Env) (st : Store)
    (hai : env.aiInit = true) (hty : env.typingOk = false) :
    handle_message env st =
      { replies := [], typingAttempts := 1, backendCalls := 0,
        raised := true, store := st } ∧
    webhook_handle_message env st =
      { replies := [], typingAttempts := 1, backendCalls := 0,
        raised := true, store := st } := by
  simp [handle_message, webhook_handle_message, hai, hty]

theorem c7_witness :
    handle_message { aiInit := true, typingOk := false, send := SendOutcome.ok none }
        { sess := none, counter := 0 } =
      { replies := [], typingAttempts := 1, backendCalls := 0,
        raised := true, store := { sess := none, counter := 0 } } ∧
    webhook_handle_message { aiInit := true, typingOk := false, send := SendOutcome.ok none }
        { sess := none, counter := 0 } =
      { replies := [], typingAttempts := 1, backendCalls := 0,
        raised := true, store := { sess := none, counter := 0 } } :=
  c7_typing_failure_aborts _ _ rfl rfl

/-- Claim C6 counterexample: in the polling variant (app.py), a successful
backend call whose `response.text` is absent makes the handler pass that
absent text to `reply_text` unchanged — no placeholder is substituted. -/
theorem c6_counterexample :
    (handle_message { aiInit := true, typingOk := true, send := SendOutcome.ok none }
        { sess := some ⟨0⟩, counter := 1 }).replies = [none] ∧
    (handle_message { aiInit := true, typingOk := true, send := SendOutcome.ok none }
        { sess := some ⟨0⟩, counter := 1 }).replies ≠ [some emptyPlaceholderText] := by
  constructor
  · rfl
  · decide

/-- Claim C6 as amended: only the webhook variant substitutes the fixed
placeholder for an empty or absent backend reply text (and treats it as a
success, not a failure); the polling variant forwards `response.text` to
`reply_text` unchanged, with no placeholder. -/
theorem c6_empty_reply_placeholder (env : Env) (st : Store) (t : Option String)
    (hai : env.aiInit = true) (hty : env.typingOk = true)
    (hsend : env.send = SendOutcome.ok t) :
    (webhook_handle_message env st).replies =
      [some (match t with
             | none => emptyPlaceholderText
             | some s => if s = "" then emptyPlaceholderText else s)] ∧
    (webhook_handle_message env st).raised = false ∧
    (handle_message env st).replies = [t] ∧
    (handle_message env st).raised = false := by
  cases t <;> cases hs : st.sess <;>
    simp [handle_message, webhook_handle_message, get_or_create_chat, hai, hty, hsend, hs]

theorem c6_witness :
    (webhook_handle_message { aiInit := true, typingOk := true, send := SendOutcome.ok none }
        { sess := some ⟨0⟩, counter := 1 }).replies =
      [some (match (none : Option String) with
             | none => emptyPlaceholderText
             | some s => if s = "" then emptyPlaceholderText else s)] ∧
    (webhook_handle_message { aiInit := true, typingOk := true, send := SendOutcome.ok none }
        { sess := some ⟨0⟩, counter := 1 }).raised = false ∧
    (handle_message { aiInit := true, typingOk := true, send := SendOutcome.ok none }
        { sess := some ⟨0⟩, counter := 1 }).replies = [(none : Option String)] ∧
    (handle_message { aiInit := true, typingOk := true, send := SendOutcome.ok none }
        { sess := some ⟨0⟩, counter := 1 }).raised = false :=
  c6_empty_reply_placeholder _ _ none rfl rfl rfl

/-- Claim C8, evaluated at the failing input: the `run_polling` call that
`main` actually starts (the first of `mainRunPollingCalls`) leaves
`drop_pending_updates` at its non-dropping default, so an update queued
before process start — here a reset command — is delivered to the
dispatcher rather than discarded.  The dead second call carries the
intended `drop_pending_updates=True`. -/
theorem c8_pending_not_dropped :
    mainRunPollingCalls.head? = some { dropPendingUpdates := false } ∧
    pendingDelivered { dropPendingUpdates := false } [UpdateKind.resetCmd] =
      [UpdateKind.resetCmd] ∧
    pendingDelivered { dropPendingUpdates := true } [UpdateKind.resetCmd] = [] := by
  exact ⟨rfl, rfl, rfl⟩

/-- Claim C9: for every queue state and every valid posted Update, the
webhook endpoint returns the success acknowledgement body, has appended the
parsed update to the tail of the internal update queue (preserving order,
without waiting for it to be processed), and has invoked no message handler
and no backend call before returning. -/
theorem c9_webhook_ack_decoupled (queue : List UpdateKind) (u : UpdateKind) :
    (webhook queue u).ackBody = okAckBody ∧
    (webhook queue u).queue = queue ++ [u] ∧
    (webhook queue u).handlersInvokedBeforeReturn = 0 ∧
    (webhook queue u).backendCallsBeforeReturn = 0 := by
  exact ⟨rfl, rfl, rfl, rfl⟩

end TelegramBot
